import Mathlib

/-
A shallow embedding of the activity-summary aggregation engine of the
Baby-Data-Tracker repository (src/bot.py; src/bot_Local.py holds an older
variant of the same logic), together with theorems settling the
specification claims about it.

Note on the source: src/bot.py contains unresolved git merge-conflict
markers. The model below follows the HEAD side of every conflicted region
(the five-bucket version with the 90-day window and the vitamin_d summary
field), which is the version the repository's help text and keyboard
describe; the unconflicted code shared by both sides (the per-record loop,
update_summary_dict, the timestamp parsing, the window conditions for
today/yesterday/7/30 days) is modelled as written.
-/

namespace BabyTracker

/-! ## Python string and int helpers

Models of the Python primitives the aggregation uses:
substring test (the `in` operator), `str.split(' ')[0]`, and `int(...)`.
-/

/-- Whitespace characters stripped by Python `int(str)` (ASCII subset of
`str.strip`): space, tab, newline, carriage return, vertical tab, form feed.
Unicode-only whitespace is not modelled; no record field in this code base
contains it. -/
def isPySpace (c : Char) : Bool :=
  c == ' ' || c == '\t' || c == '\n' || c == '\r' || c == Char.ofNat 11 || c == Char.ofNat 12

/-- listStartsWith p l: the char list l starts with p. -/
def listStartsWith : List Char → List Char → Bool
  | [], _ => true
  | _ :: _, [] => false
  | p :: ps, c :: cs => p == c && listStartsWith ps cs

/-- listContainsSeq needle hay: needle occurs contiguously inside hay.
Model of the Python substring test `needle in hay`. -/
def listContainsSeq (needle : List Char) : List Char → Bool
  | [] => listStartsWith needle []
  | c :: cs => listStartsWith needle (c :: cs) || listContainsSeq needle cs

/-- Model of `'mins' in value` (bot.py line 310). -/
def hasMins (value : String) : Bool :=
  listContainsSeq (("mins").toList) (value.toList)

/-- Model of `value.split(' ')[0]` (bot.py line 312): the prefix of the
string up to (excluding) the first space character; the whole string when
it contains no space. `str.split(' ')` with an explicit single-space
separator always returns at least one element, so the index is total. -/
def firstSpaceToken (value : String) : String :=
  String.mk (value.toList.takeWhile (fun c => c ≠ ' '))

/-- Decimal value of a digit list (most significant first). -/
def digitsToNat (ds : List Char) : Nat :=
  ds.foldl (fun a c => a * 10 + (c.toNat - 48)) 0

/-- Core of Python `int(str)` after whitespace stripping: an optional single
sign followed by one or more ASCII digits. Underscore digit grouping
(accepted by Python between digits) and non-ASCII digits are not modelled;
no claim or record field in this code base uses them. Anything else raises
ValueError, modelled as `none`. -/
def pyParseIntCore : List Char → Option Int
  | [] => none
  | c :: cs =>
    if c = '-' then
      if cs ≠ [] ∧ cs.all (fun d => d.isDigit) then some (-(digitsToNat cs : Int)) else none
    else if c = '+' then
      if cs ≠ [] ∧ cs.all (fun d => d.isDigit) then some ((digitsToNat cs : Int)) else none
    else if (c :: cs).all (fun d => d.isDigit) then some ((digitsToNat (c :: cs) : Int))
    else none

/-- Model of Python `int(s)` (bot.py line 312): strips surrounding
whitespace, then parses an optionally signed decimal integer; `none` models
the ValueError swallowed at bot.py lines 314-315. -/
def pyParseInt (s : String) : Option Int :=
  let cs := s.toList.dropWhile isPySpace
  pyParseIntCore ((cs.reverse.dropWhile isPySpace).reverse)

/-! ## Calendar

Proleptic Gregorian calendar arithmetic, following CPython's
`datetime._ymd2ord` (the basis of `date.toordinal`). Python compares and
subtracts `date` objects through `toordinal`, which is a bijection between
valid dates and positive integers, so the model performs the date
comparisons of the summary loop on ordinals.
-/

/-- Gregorian leap-year rule, as CPython `datetime._is_leap`. -/
def isLeapYear (y : Nat) : Bool :=
  y % 4 == 0 && (y % 100 != 0 || y % 400 == 0)

/-- Number of days in a month (month 1-12), as CPython `_days_in_month`. -/
def daysInMonth (y m : Nat) : Nat :=
  if m = 2 then (if isLeapYear y then 29 else 28)
  else if m = 4 ∨ m = 6 ∨ m = 9 ∨ m = 11 then 30
  else 31

/-- Cumulative days before each month in a non-leap year, indexed 1-12
(index 0 unused), as CPython `_DAYS_BEFORE_MONTH`. -/
def daysBeforeMonthTable : List Nat :=
  [0, 0, 31, 59, 90, 120, 151, 181, 212, 243, 273, 304, 334]

/-- Days in prior months of the same year, as CPython `_days_before_month`. -/
def daysBeforeMonth (y m : Nat) : Nat :=
  daysBeforeMonthTable.getD m 0 + (if 2 < m ∧ isLeapYear y then 1 else 0)

/-- Days before January 1st of the given year, as CPython
`_days_before_year`. -/
def daysBeforeYear (y : Nat) : Nat :=
  let p := y - 1
  p * 365 + p / 4 - p / 100 + p / 400

/-- A calendar date as held by a Python `datetime.date`: year, month, day.
The timestamp parser only produces validated dates (year at least 1, month
1-12, day within the month). -/
structure Date where
  year : Nat
  month : Nat
  day : Nat
deriving DecidableEq

/-- Python `date.toordinal`: day number with 0001-01-01 as day 1
(CPython `_ymd2ord`). -/
def Date.toOrdinal (d : Date) : Nat :=
  daysBeforeYear d.year + daysBeforeMonth d.year d.month + d.day

/-! ## Timestamp parser

Model of the two `datetime.strptime` calls at bot.py lines 290-295:
format `%Y-%m-%d %H:%M:%S` is attempted first and, on ValueError, format
`%Y-%m-%d %H:%M` is attempted; a second failure propagates to the
per-record handler (lines 343-345), which skips the record.
`IST.localize` (line 297) attaches a timezone without changing the date
or time fields, and only `.date()` is used downstream, so the parser
result is modelled as the naive date and time.
-/

/-- A parsed naive timestamp; only `date` is consumed by the aggregation. -/
structure NaiveDateTime where
  date : Date
  hour : Nat
  minute : Nat
  second : Nat
deriving DecidableEq

/-- Take at most n leading digit characters. CPython's strptime matches
`%m %d %H %M %S` with one-or-two-digit patterns and `%Y` with exactly four
digits; out-of-range two-digit matches fail overall just as they do here. -/
def takeDigitsUpTo : Nat → List Char → (List Char × List Char)
  | 0, cs => ([], cs)
  | _ + 1, [] => ([], [])
  | n + 1, c :: cs =>
    if c.isDigit then
      let (ds, rest) := takeDigitsUpTo n cs
      (c :: ds, rest)
    else ([], c :: cs)

/-- Consume one expected literal character. -/
def expectChar (c : Char) : List Char → Option (List Char)
  | [] => none
  | d :: cs => if d = c then some cs else none

/-- Consume one or more whitespace characters: CPython's strptime compiles
a literal space in the format string to the regex `\s+`. -/
def expectSpaces : List Char → Option (List Char)
  | [] => none
  | c :: cs => if isPySpace c then some (cs.dropWhile isPySpace) else none

/-- Parse a one-or-two-digit numeric field. -/
def parseField2 (cs : List Char) : Option (Nat × List Char) :=
  match takeDigitsUpTo 2 cs with
  | ([], _) => none
  | (ds, rest) => some (digitsToNat ds, rest)

/-- Range validation performed by the `datetime` constructor once strptime's
regex has matched: year at least MINYEAR (1), month 1-12, day within the
month, hour 0-23, minute 0-59, second 0-59. A constructor ValueError and a
regex mismatch are indistinguishable to the caller (both raise ValueError),
so both are modelled as `none`. -/
abbrev validDateTime (year month day hour minute second : Nat) : Prop :=
  1 ≤ year ∧ 1 ≤ month ∧ month ≤ 12 ∧ 1 ≤ day ∧ day ≤ daysInMonth year month ∧
    hour ≤ 23 ∧ minute ≤ 59 ∧ second ≤ 59

/-- One strict strptime attempt: `%Y-%m-%d %H:%M:%S` when withSeconds is
true, `%Y-%m-%d %H:%M` otherwise. The whole input must be consumed
(strptime raises on unconverted trailing data). -/
def parseTimestampCore (withSeconds : Bool) (s : String) : Option NaiveDateTime := do
  let cs0 := s.toList
  let (yds, cs1) := takeDigitsUpTo 4 cs0
  if yds.length ≠ 4 then none
  else
    let year := digitsToNat yds
    let cs2 ← expectChar '-' cs1
    let (month, cs3) ← parseField2 cs2
    let cs4 ← expectChar '-' cs3
    let (day, cs5) ← parseField2 cs4
    let cs6 ← expectSpaces cs5
    let (hour, cs7) ← parseField2 cs6
    let cs8 ← expectChar ':' cs7
    let (minute, cs9) ← parseField2 cs8
    if withSeconds then
      let cs10 ← expectChar ':' cs9
      let (second, cs11) ← parseField2 cs10
      if cs11.isEmpty ∧ validDateTime year month day hour minute second then
        pure ⟨⟨year, month, day⟩, hour, minute, second⟩
      else none
    else
      if cs9.isEmpty ∧ validDateTime year month day hour minute 0 then
        pure ⟨⟨year, month, day⟩, hour, minute, 0⟩
      else none

/-- The two-attempt parse of bot.py lines 290-295: seconds format first,
then the fallback without seconds. -/
def parseRecordTimestamp (s : String) : Option NaiveDateTime :=
  match parseTimestampCore true s with
  | some dt => some dt
  | none => parseTimestampCore false s

/-! ## Records and rollups -/

/-- One row of the BabyLog sheet as returned by `get_all_records`, keyed by
the header columns Timestamp, Activity Type, Value/Details and
Telegram User ID (bot.py lines 81, 252, 287, 300-301). -/
structure Record where
  timestamp : String
  activityType : String
  valueDetails : String
  userId : String
deriving DecidableEq

/-- One per-bucket summary dictionary, initialized at bot.py lines 262-266:
pee, poop, feed_count, feed_total_mins, medications, vitamin_d all zero.
feed_total_mins is an Int because Python `int(...)` can yield negative
durations which are then added. -/
structure SummaryDict where
  pee : Nat
  poop : Nat
  feed_count : Nat
  feed_total_mins : Int
  medications : Nat
  vitamin_d : Nat
deriving DecidableEq

/-- The fresh all-zero dictionary each bucket starts from on every
invocation of summary. -/
def initialSummary : SummaryDict :=
  { pee := 0, poop := 0, feed_count := 0, feed_total_mins := 0, medications := 0, vitamin_d := 0 }

/-- bot.py lines 303-317, update_summary_dict (identical in
bot_Local.py lines 225-239). Pee and Poop increment their counters; Feed
increments feed_count and, when the value contains the substring mins,
adds the Python-int parse of the first space-delimited token to
feed_total_mins, swallowing a ValueError (the source increments feed_count
first and then conditionally adds the duration; the two updates are merged
into one record update per branch here). Medication increments
medications only: no branch of this function touches vitamin_d, even
though the HEAD-side summary dictionaries carry that field. -/
def update_summary_dict (summary_dict : SummaryDict) (activity value : String) : SummaryDict :=
  if activity = ("Pee") then { summary_dict with pee := summary_dict.pee + 1 }
  else if activity = ("Poop") then { summary_dict with poop := summary_dict.poop + 1 }
  else if activity = ("Feed") then
    if hasMins value then
      match pyParseInt (firstSpaceToken value) with
      | some duration =>
        { summary_dict with feed_count := summary_dict.feed_count + 1,
                            feed_total_mins := summary_dict.feed_total_mins + duration }
      | none => { summary_dict with feed_count := summary_dict.feed_count + 1 }
    else { summary_dict with feed_count := summary_dict.feed_count + 1 }
  else if activity = ("Medication") then
    { summary_dict with medications := summary_dict.medications + 1 }
  else summary_dict

/-! ## Window classifier

bot.py lines 319-341. Python compares `date` objects, which agree exactly
when their toordinal values agree (toordinal is a bijection between valid
dates and positive integers), and subtracts them through toordinal
(`date.__sub__` returns `timedelta(self.toordinal() - other.toordinal())`),
so every condition is modelled on ordinals. `yesterday_ist` is
`today_ist - timedelta(days=1)` (line 257), the date with ordinal one less.
Differences are taken in Int: a record date after now yields a negative
difference, just as the corresponding Python timedelta is negative.
-/

/-- `record_date_ist == today_ist` (bot.py line 319). -/
abbrev MemToday (now rec : Date) : Prop :=
  rec.toOrdinal = now.toOrdinal

/-- `record_date_ist == yesterday_ist` (bot.py line 322). -/
abbrev MemYesterday (now rec : Date) : Prop :=
  (rec.toOrdinal : Int) = (now.toOrdinal : Int) - 1

/-- `today_ist - record_date_ist < timedelta(days=7)` (bot.py line 325). -/
abbrev MemLast7Days (now rec : Date) : Prop :=
  (now.toOrdinal : Int) - (rec.toOrdinal : Int) < 7

/-- `today_ist - record_date_ist < timedelta(days=30)` (bot.py line 329). -/
abbrev MemLast30Days (now rec : Date) : Prop :=
  (now.toOrdinal : Int) - (rec.toOrdinal : Int) < 30

/-- `today_ist - record_date_ist < timedelta(days=90)` (bot.py line 335). -/
abbrev MemLast90Days (now rec : Date) : Prop :=
  (now.toOrdinal : Int) - (rec.toOrdinal : Int) < 90

/-! ## Aggregator -/

/-- The mutable state of one summary invocation: the five bucket
dictionaries (bot.py lines 262-266) and the record lists collected for the
chart builder (lines 269-271). -/
structure SummaryState where
  today : SummaryDict
  yesterday : SummaryDict
  last7 : SummaryDict
  last30 : SummaryDict
  last90 : SummaryDict
  records7 : List Record
  records30 : List Record
  records90 : List Record
deriving DecidableEq

/-- Fresh state built at the start of every summary call. -/
def initialState : SummaryState :=
  { today := initialSummary, yesterday := initialSummary, last7 := initialSummary,
    last30 := initialSummary, last90 := initialSummary,
    records7 := [], records30 := [], records90 := [] }

/-- One iteration of the record loop, bot.py lines 285-345: parse the
timestamp (two formats, lines 290-295); on failure the per-record handler
(lines 343-345) logs a warning and continues, leaving all state unchanged;
on success, each bucket whose condition holds is updated via
update_summary_dict, and the rolling-window record lists are extended
(lines 319-337). The five updates are independent in the source (each
touches a different dictionary), so they are written as one record
construction. -/
def processRecord (now : Date) (st : SummaryState) (r : Record) : SummaryState :=
  match parseRecordTimestamp r.timestamp with
  | none => st
  | some dt =>
    let rd := dt.date
    { today := if MemToday now rd then
        update_summary_dict st.today r.activityType r.valueDetails else st.today,
      yesterday := if MemYesterday now rd then
        update_summary_dict st.yesterday r.activityType r.valueDetails else st.yesterday,
      last7 := if MemLast7Days now rd then
        update_summary_dict st.last7 r.activityType r.valueDetails else st.last7,
      last30 := if MemLast30Days now rd then
        update_summary_dict st.last30 r.activityType r.valueDetails else st.last30,
      last90 := if MemLast90Days now rd then
        update_summary_dict st.last90 r.activityType r.valueDetails else st.last90,
      records7 := if MemLast7Days now rd then st.records7 ++ [r] else st.records7,
      records30 := if MemLast30Days now rd then st.records30 ++ [r] else st.records30,
      records90 := if MemLast90Days now rd then st.records90 ++ [r] else st.records90 }

/-- The whole aggregation pass of one summary invocation (bot.py lines
252-345): fold the record loop over the snapshot returned by
get_all_records, starting from freshly zeroed dictionaries. -/
def aggregateRecords (now : Date) (records : List Record) : SummaryState :=
  records.foldl (processRecord now) initialState

/-- The five bucket rollups of a state (without the chart record lists). -/
def dictsOf (st : SummaryState) :
    SummaryDict × SummaryDict × SummaryDict × SummaryDict × SummaryDict :=
  (st.today, st.yesterday, st.last7, st.last30, st.last90)

/-- Two records that agree on every sheet column except Telegram User ID. -/
def SameExceptUserId (r₁ r₂ : Record) : Prop :=
  r₁.timestamp = r₂.timestamp ∧ r₁.activityType = r₂.activityType ∧
    r₁.valueDetails = r₂.valueDetails

/-! ## Period-argument dispatch

bot.py lines 347-428. The common code at lines 349-356 defines
`format_summary(title, data, date_info="")`, whose body is a single
return; the HEAD-side lines that follow it (360-366, referencing
period_days and formatted_str) sit after that return and are unreachable,
and period_days is not a parameter of the function. Consequently the
branches for 7days, 1month and 3month (lines 384, 388, 392) and the
all-buckets default branch (lines 398-400) call
`format_summary(..., period_days=...)` and raise TypeError for an
unexpected keyword argument; the exception is caught by the outer handler
(lines 430-432), which replies with a generic error, so no rollup text and
no chart is produced on those paths. In the 7days/1month/3month branches
the raising call precedes the `graph_data = records_N` assignment, so
graph data is never set; hence no selection ever reaches the chart builder
(lines 424-428).
-/

/-- Outcome of a Python call: a normal value, or a raised exception caught
by the enclosing handler. -/
inductive PyOutcome (α : Type) where
  | ok : α → PyOutcome α
  | raised : String → PyOutcome α
deriving DecidableEq

/-- What a successful summary reply contains: the titled bucket rollups
appended to response_message, and the records handed to the chart builder
(graph_data), if any. -/
structure SummaryReply where
  blocks : List (String × SummaryDict)
  graphData : Option (List Record)
deriving DecidableEq

/-- The TypeError raised when format_summary is called with the
period_days keyword it does not accept. -/
def typeErrorMsg : String :=
  "TypeError: format_summary got an unexpected keyword argument period_days"

/-- The argument dispatch of bot.py lines 372-400 (arg is
`context.args[0].lower()` when present, None otherwise), with the outcome
of the subsequent reply and chart steps (lines 422-428). today and
yesterday format successfully with no chart; every other path reaches a
`format_summary(..., period_days=...)` call and raises. -/
def summaryDispatch (st : SummaryState) (arg : Option String) : PyOutcome SummaryReply :=
  if arg = Option.some ("today") then
    PyOutcome.ok { blocks := [(("Current Day"), st.today)], graphData := none }
  else if arg = Option.some ("yesterday") then
    PyOutcome.ok { blocks := [(("Previous Day"), st.yesterday)], graphData := none }
  else if arg = Option.some ("7days") then PyOutcome.raised typeErrorMsg
  else if arg = Option.some ("1month") then PyOutcome.raised typeErrorMsg
  else if arg = Option.some ("3month") then PyOutcome.raised typeErrorMsg
  else PyOutcome.raised typeErrorMsg

/-- The records a dispatch outcome forwards to the chart builder: none when
the call raised, the graph data otherwise. -/
def graphDataOf : PyOutcome SummaryReply → Option (List Record)
  | PyOutcome.ok r => r.graphData
  | PyOutcome.raised _ => none

/-! ## Helper lemmas -/

/-- A record whose timestamp matches neither strptime format leaves the
whole summary state untouched. -/
theorem processRecord_skip (now : Date) (st : SummaryState) (r : Record)
    (h : parseRecordTimestamp r.timestamp = none) :
    processRecord now st r = st := by
  simp [processRecord, h]

/-- Removing a record with an unparseable timestamp from anywhere in the
snapshot does not change the aggregation result: the bad row is skipped
and the fold continues over the rest. -/
theorem aggregateRecords_skip (now : Date) (xs ys : List Record) (r : Record)
    (h : parseRecordTimestamp r.timestamp = none) :
    aggregateRecords now (xs ++ r :: ys) = aggregateRecords now (xs ++ ys) := by
  unfold aggregateRecords
  rw [List.foldl_append, List.foldl_append, List.foldl_cons,
    processRecord_skip now _ r h]

/-- The five bucket rollups produced by one loop iteration depend only on
the timestamp, activity and value columns of the record, never on the
user id column. -/
theorem dictsOf_processRecord (now : Date) {st₁ st₂ : SummaryState} {r₁ r₂ : Record}
    (hr : SameExceptUserId r₁ r₂) (hst : dictsOf st₁ = dictsOf st₂) :
    dictsOf (processRecord now st₁ r₁) = dictsOf (processRecord now st₂ r₂) := by
  obtain ⟨ht, ha, hv⟩ := hr
  obtain ⟨e1, e2, e3, e4, e5⟩ :
      st₁.today = st₂.today ∧ st₁.yesterday = st₂.yesterday ∧ st₁.last7 = st₂.last7 ∧
        st₁.last30 = st₂.last30 ∧ st₁.last90 = st₂.last90 := by
    simpa [dictsOf, Prod.ext_iff] using hst
  cases hpp : parseRecordTimestamp r₂.timestamp with
  | none => simp [processRecord, ht, hpp, dictsOf, e1, e2, e3, e4, e5]
  | some dt => simp [processRecord, ht, ha, hv, hpp, dictsOf, e1, e2, e3, e4, e5]

/-- Folding the record loop over two snapshots that differ only in user
ids, from states with equal rollups, yields equal rollups. -/
theorem dictsOf_foldl (now : Date) :
    ∀ (rs₁ rs₂ : List Record), List.Forall₂ SameExceptUserId rs₁ rs₂ →
      ∀ (st₁ st₂ : SummaryState), dictsOf st₁ = dictsOf st₂ →
        dictsOf (List.foldl (processRecord now) st₁ rs₁) =
          dictsOf (List.foldl (processRecord now) st₂ rs₂) := by
  intro rs₁ rs₂ h
  induction h with
  | nil => intro st₁ st₂ hst; simpa using hst
  | cons hr hrs ih =>
    intro st₁ st₂ hst
    simp only [List.foldl_cons]
    exact ih _ _ (dictsOf_processRecord now hr hst)

/-! ## Claims -/

/-- C1: the claim states that a Medication record increments
medication_count in every bucket it falls into and, when value_details is
Vitamin D, additionally increments vitamin_d_count, so the end-to-end
scenario's Today rollup has medications 1 and vitamin_d 1. The code
increments medications but no branch of update_summary_dict ever touches
vitamin_d (bot.py lines 303-317), even though the summary dictionaries
initialize a vitamin_d field (lines 262-266) and the formatter is meant to
display it: in the scenario with now 2024-01-07 and the spec's three
records, the Today rollup comes out with medications 1 and vitamin_d 0. -/
theorem c1_vitamin_d_never_incremented :
    (∀ (d : SummaryDict) (a v : String), (update_summary_dict d a v).vitamin_d = d.vitamin_d) ∧
    (∀ (d : SummaryDict) (v : String),
      (update_summary_dict d ("Medication") v).medications = d.medications + 1) ∧
    (aggregateRecords ⟨2024, 1, 7⟩
        [⟨("2024-01-01 08:00:00"), ("Feed"), ("15 mins"), ("u1")⟩,
         ⟨("2024-01-01 09:00:00"), ("Poop"), ("N/A"), ("u1")⟩,
         ⟨("2024-01-07 10:00:00"), ("Medication"), ("Vitamin D"), ("u1")⟩]).today =
      { pee := 0, poop := 0, feed_count := 0, feed_total_mins := 0,
        medications := 1, vitamin_d := 0 } := by
  refine ⟨?_, ?_, by decide⟩
  · intro d a v
    unfold update_summary_dict
    repeat' split
    all_goals rfl
  · intro d v
    unfold update_summary_dict
    rw [if_neg (by decide), if_neg (by decide), if_neg (by decide), if_pos rfl]

/-- C2: bucket membership relative to now_date. Today holds exactly when
the record date equals now_date, Yesterday exactly when it equals the date
one day before, and each rolling window holds exactly when the (possibly
negative) difference now_date minus record_date is strictly below 7, 30 or
90 days; in particular a record dated exactly 7 days before now_date lies
in Last30Days and Last90Days but not in Last7Days (and in neither Today
nor Yesterday). -/
theorem c2_bucket_membership (now rec : Date) :
    (MemToday now rec ↔ rec.toOrdinal = now.toOrdinal) ∧
    (MemYesterday now rec ↔ (rec.toOrdinal : Int) = (now.toOrdinal : Int) - 1) ∧
    (MemLast7Days now rec ↔ (now.toOrdinal : Int) - (rec.toOrdinal : Int) < 7) ∧
    (MemLast30Days now rec ↔ (now.toOrdinal : Int) - (rec.toOrdinal : Int) < 30) ∧
    (MemLast90Days now rec ↔ (now.toOrdinal : Int) - (rec.toOrdinal : Int) < 90) ∧
    ((now.toOrdinal : Int) - (rec.toOrdinal : Int) = 7 →
      ¬ MemLast7Days now rec ∧ MemLast30Days now rec ∧ MemLast90Days now rec ∧
        ¬ MemToday now rec ∧ ¬ MemYesterday now rec) := by
  refine ⟨Iff.rfl, Iff.rfl, Iff.rfl, Iff.rfl, Iff.rfl, fun h => ?_⟩
  simp only [MemToday, MemYesterday, MemLast7Days, MemLast30Days, MemLast90Days]
  omega

/-- C2 witness: 2024-01-01 is exactly 7 days before 2024-01-08, so the
record is kept by the 30- and 90-day windows and dropped by the 7-day
window. -/
theorem c2_bucket_membership_witness :
    ¬ MemLast7Days ⟨2024, 1, 8⟩ ⟨2024, 1, 1⟩ ∧ MemLast30Days ⟨2024, 1, 8⟩ ⟨2024, 1, 1⟩ ∧
      MemLast90Days ⟨2024, 1, 8⟩ ⟨2024, 1, 1⟩ ∧ ¬ MemToday ⟨2024, 1, 8⟩ ⟨2024, 1, 1⟩ ∧
      ¬ MemYesterday ⟨2024, 1, 8⟩ ⟨2024, 1, 1⟩ :=
  (c2_bucket_membership ⟨2024, 1, 8⟩ ⟨2024, 1, 1⟩).2.2.2.2.2 (by decide)

/-- C3: the timestamp is parsed by first attempting the format with
seconds and, only when that fails, the format without seconds; a record
whose timestamp matches neither format leaves every bucket and record
list unchanged, and deleting it from anywhere in the snapshot does not
change the aggregation of the remaining records (the bad row never aborts
the batch). -/
theorem c3_parse_fallback_and_skip :
    (∀ s dt, parseTimestampCore true s = some dt → parseRecordTimestamp s = some dt) ∧
    (∀ s, parseTimestampCore true s = none →
      parseRecordTimestamp s = parseTimestampCore false s) ∧
    (∀ now st r, parseRecordTimestamp r.timestamp = none → processRecord now st r = st) ∧
    (∀ now xs ys r, parseRecordTimestamp r.timestamp = none →
      aggregateRecords now (xs ++ r :: ys) = aggregateRecords now (xs ++ ys)) := by
  refine ⟨fun s dt h => ?_, fun s h => ?_, processRecord_skip, aggregateRecords_skip⟩
  · simp [parseRecordTimestamp, h]
  · simp [parseRecordTimestamp, h]

/-- C3 witness: a timestamp without seconds falls through to the second
format, and a not-a-date row in the middle of a batch is skipped while the
rest aggregates. -/
theorem c3_parse_fallback_and_skip_witness :
    parseRecordTimestamp ("2024-01-01 08:00") = parseTimestampCore false ("2024-01-01 08:00") ∧
    aggregateRecords ⟨2024, 1, 7⟩
        ([⟨("2024-01-07 10:00:00"), ("Medication"), ("Vitamin D"), ("u1")⟩] ++
          ⟨("not-a-date"), ("Pee"), ("N/A"), ("u1")⟩ ::
            [⟨("2024-01-07 11:00:00"), ("Pee"), ("N/A"), ("u1")⟩]) =
      aggregateRecords ⟨2024, 1, 7⟩
        ([⟨("2024-01-07 10:00:00"), ("Medication"), ("Vitamin D"), ("u1")⟩] ++
          [⟨("2024-01-07 11:00:00"), ("Pee"), ("N/A"), ("u1")⟩]) :=
  ⟨c3_parse_fallback_and_skip.2.1 _ (by decide),
    c3_parse_fallback_and_skip.2.2.2 _ _ _ _ (by decide)⟩

/-- C4: a Feed record always increments feed_count by one; when the value
contains the substring mins and its leading space-delimited token parses
as a Python int n, n is added to feed_total_mins; when the leading token
is non-numeric the total is left unchanged while the feed is still
counted. -/
theorem c4_feed_minutes (d : SummaryDict) (value : String) :
    (update_summary_dict d ("Feed") value).feed_count = d.feed_count + 1 ∧
    (∀ n : Int, hasMins value = true → pyParseInt (firstSpaceToken value) = some n →
      (update_summary_dict d ("Feed") value).feed_total_mins = d.feed_total_mins + n) ∧
    (pyParseInt (firstSpaceToken value) = none →
      (update_summary_dict d ("Feed") value).feed_total_mins = d.feed_total_mins) := by
  have key : update_summary_dict d ("Feed") value =
      (if hasMins value then
        match pyParseInt (firstSpaceToken value) with
        | some duration =>
          { d with feed_count := d.feed_count + 1,
                   feed_total_mins := d.feed_total_mins + duration }
        | none => { d with feed_count := d.feed_count + 1 }
      else { d with feed_count := d.feed_count + 1 }) := by
    unfold update_summary_dict
    rw [if_neg (by decide), if_neg (by decide), if_pos rfl]
  refine ⟨?_, ?_, ?_⟩
  · rw [key]
    by_cases hm : hasMins value
    · rw [if_pos hm]
      cases hp : pyParseInt (firstSpaceToken value) <;> rfl
    · rw [if_neg hm]
  · intro n hm hp
    rw [key, if_pos hm, hp]
  · intro hp
    rw [key]
    by_cases hm : hasMins value
    · rw [if_pos hm, hp]
    · rw [if_neg hm]

/-- C4 witness: the spec's two examples, 15 mins and fifteen mins. -/
theorem c4_feed_minutes_witness :
    (update_summary_dict initialSummary ("Feed") ("15 mins")).feed_count =
      initialSummary.feed_count + 1 ∧
    (update_summary_dict initialSummary ("Feed") ("15 mins")).feed_total_mins =
      initialSummary.feed_total_mins + 15 ∧
    (update_summary_dict initialSummary ("Feed") ("fifteen mins")).feed_total_mins =
      initialSummary.feed_total_mins :=
  ⟨(c4_feed_minutes initialSummary ("15 mins")).1,
    (c4_feed_minutes initialSummary ("15 mins")).2.1 15 (by decide) (by decide),
    (c4_feed_minutes initialSummary ("fifteen mins")).2.2 (by decide)⟩

/-- C5: the claim states that 7days, 1month and 3month report exactly the
corresponding bucket and forward its records to the chart builder, and
that an absent or unrecognized argument reports all buckets. On the code,
only today and yesterday (which produce no chart) format successfully;
the 7days, 1month, 3month and all-buckets paths all call
format_summary with the period_days keyword it does not accept, raise
TypeError before graph_data is ever assigned, and fall into the generic
error handler, so no rollup is reported and no selection at all ever
forwards records to the chart builder. -/
theorem c5_period_dispatch (st : SummaryState) :
    summaryDispatch st (Option.some ("today")) =
      PyOutcome.ok { blocks := [(("Current Day"), st.today)], graphData := none } ∧
    summaryDispatch st (Option.some ("yesterday")) =
      PyOutcome.ok { blocks := [(("Previous Day"), st.yesterday)], graphData := none } ∧
    summaryDispatch st (Option.some ("7days")) = PyOutcome.raised typeErrorMsg ∧
    summaryDispatch st (Option.some ("1month")) = PyOutcome.raised typeErrorMsg ∧
    summaryDispatch st (Option.some ("3month")) = PyOutcome.raised typeErrorMsg ∧
    summaryDispatch st none = PyOutcome.raised typeErrorMsg ∧
    (∀ arg, graphDataOf (summaryDispatch st arg) = none) := by
  refine ⟨rfl, rfl, rfl, rfl, rfl, rfl, fun arg => ?_⟩
  simp only [summaryDispatch]
  repeat' split
  all_goals rfl

/-- C6: a record dated strictly after now_date has a negative difference
now_date minus record_date, therefore satisfies every strict window
condition and is counted (not rejected) by all three rolling windows,
including being forwarded to the 7-day chart records. -/
theorem c6_future_dated (now : Date) (st : SummaryState) (r : Record) (dt : NaiveDateTime)
    (hp : parseRecordTimestamp r.timestamp = some dt)
    (hf : (now.toOrdinal : Int) < (dt.date.toOrdinal : Int)) :
    ((now.toOrdinal : Int) - (dt.date.toOrdinal : Int) < 0) ∧
    MemLast7Days now dt.date ∧ MemLast30Days now dt.date ∧ MemLast90Days now dt.date ∧
    (processRecord now st r).last7 =
      update_summary_dict st.last7 r.activityType r.valueDetails ∧
    (processRecord now st r).last30 =
      update_summary_dict st.last30 r.activityType r.valueDetails ∧
    (processRecord now st r).last90 =
      update_summary_dict st.last90 r.activityType r.valueDetails ∧
    (processRecord now st r).records7 = st.records7 ++ [r] := by
  have h7 : MemLast7Days now dt.date := by simp only [MemLast7Days]; omega
  have h30 : MemLast30Days now dt.date := by simp only [MemLast30Days]; omega
  have h90 : MemLast90Days now dt.date := by simp only [MemLast90Days]; omega
  refine ⟨by omega, h7, h30, h90, ?_, ?_, ?_, ?_⟩
  all_goals simp [processRecord, hp, h7, h30, h90]

/-- C6 witness: with now 2024-01-07, a record stamped 2024-01-08 is folded
into all three rolling windows. -/
theorem c6_future_dated_witness :
    ((((⟨2024, 1, 7⟩ : Date).toOrdinal : Int) - (((⟨2024, 1, 8⟩ : Date)).toOrdinal : Int) < 0) ∧
    MemLast7Days ⟨2024, 1, 7⟩ ⟨2024, 1, 8⟩ ∧ MemLast30Days ⟨2024, 1, 7⟩ ⟨2024, 1, 8⟩ ∧
    MemLast90Days ⟨2024, 1, 7⟩ ⟨2024, 1, 8⟩ ∧
    (processRecord ⟨2024, 1, 7⟩ initialState
        ⟨("2024-01-08 10:00:00"), ("Pee"), ("N/A"), ("u1")⟩).last7 =
      update_summary_dict initialState.last7 ("Pee") ("N/A") ∧
    (processRecord ⟨2024, 1, 7⟩ initialState
        ⟨("2024-01-08 10:00:00"), ("Pee"), ("N/A"), ("u1")⟩).last30 =
      update_summary_dict initialState.last30 ("Pee") ("N/A") ∧
    (processRecord ⟨2024, 1, 7⟩ initialState
        ⟨("2024-01-08 10:00:00"), ("Pee"), ("N/A"), ("u1")⟩).last90 =
      update_summary_dict initialState.last90 ("Pee") ("N/A") ∧
    (processRecord ⟨2024, 1, 7⟩ initialState
        ⟨("2024-01-08 10:00:00"), ("Pee"), ("N/A"), ("u1")⟩).records7 =
      initialState.records7 ++ [⟨("2024-01-08 10:00:00"), ("Pee"), ("N/A"), ("u1")⟩]) :=
  c6_future_dated ⟨2024, 1, 7⟩ initialState
    ⟨("2024-01-08 10:00:00"), ("Pee"), ("N/A"), ("u1")⟩ ⟨⟨2024, 1, 8⟩, 10, 0, 0⟩
    (by decide) (by decide)

/-- C7: the aggregation is a pure function of the snapshot and of now:
running it over an identical snapshot with the same now gives identical
rollups (each invocation starts from freshly zeroed dictionaries, encoded
by aggregateRecords always folding from initialState, so no state survives
between runs). -/
theorem c7_deterministic (now : Date) (rs₁ rs₂ : List Record) (h : rs₁ = rs₂) :
    aggregateRecords now rs₁ = aggregateRecords now rs₂ := by rw [h]

/-- C7 witness: two runs over the same one-record snapshot coincide. -/
theorem c7_deterministic_witness :
    aggregateRecords ⟨2024, 1, 7⟩ [⟨("2024-01-07 10:00:00"), ("Pee"), ("N/A"), ("u1")⟩] =
      aggregateRecords ⟨2024, 1, 7⟩ [⟨("2024-01-07 10:00:00"), ("Pee"), ("N/A"), ("u1")⟩] :=
  c7_deterministic ⟨2024, 1, 7⟩ _ _ rfl

/-- C8: two snapshots whose records agree on every column except Telegram
User ID produce the same rollup in every bucket: the user id is carried in
the record but never read by the aggregation. -/
theorem c8_user_id_irrelevant (now : Date) (rs₁ rs₂ : List Record)
    (h : List.Forall₂ SameExceptUserId rs₁ rs₂) :
    (aggregateRecords now rs₁).today = (aggregateRecords now rs₂).today ∧
    (aggregateRecords now rs₁).yesterday = (aggregateRecords now rs₂).yesterday ∧
    (aggregateRecords now rs₁).last7 = (aggregateRecords now rs₂).last7 ∧
    (aggregateRecords now rs₁).last30 = (aggregateRecords now rs₂).last30 ∧
    (aggregateRecords now rs₁).last90 = (aggregateRecords now rs₂).last90 := by
  have hd := dictsOf_foldl now rs₁ rs₂ h initialState initialState rfl
  simpa [aggregateRecords, dictsOf, Prod.ext_iff] using hd

/-- C8 witness: the same record reported by alice and by bob rolls up
identically. -/
theorem c8_user_id_irrelevant_witness :
    (aggregateRecords ⟨2024, 1, 7⟩
        [⟨("2024-01-07 10:00:00"), ("Pee"), ("N/A"), ("alice")⟩]).today =
      (aggregateRecords ⟨2024, 1, 7⟩
        [⟨("2024-01-07 10:00:00"), ("Pee"), ("N/A"), ("bob")⟩]).today ∧
    (aggregateRecords ⟨2024, 1, 7⟩
        [⟨("2024-01-07 10:00:00"), ("Pee"), ("N/A"), ("alice")⟩]).yesterday =
      (aggregateRecords ⟨2024, 1, 7⟩
        [⟨("2024-01-07 10:00:00"), ("Pee"), ("N/A"), ("bob")⟩]).yesterday ∧
    (aggregateRecords ⟨2024, 1, 7⟩
        [⟨("2024-01-07 10:00:00"), ("Pee"), ("N/A"), ("alice")⟩]).last7 =
      (aggregateRecords ⟨2024, 1, 7⟩
        [⟨("2024-01-07 10:00:00"), ("Pee"), ("N/A"), ("bob")⟩]).last7 ∧
    (aggregateRecords ⟨2024, 1, 7⟩
        [⟨("2024-01-07 10:00:00"), ("Pee"), ("N/A"), ("alice")⟩]).last30 =
      (aggregateRecords ⟨2024, 1, 7⟩
        [⟨("2024-01-07 10:00:00"), ("Pee"), ("N/A"), ("bob")⟩]).last30 ∧
    (aggregateRecords ⟨2024, 1, 7⟩
        [⟨("2024-01-07 10:00:00"), ("Pee"), ("N/A"), ("alice")⟩]).last90 =
      (aggregateRecords ⟨2024, 1, 7⟩
        [⟨("2024-01-07 10:00:00"), ("Pee"), ("N/A"), ("bob")⟩]).last90 :=
  c8_user_id_irrelevant ⟨2024, 1, 7⟩ _ _
    (List.Forall₂.cons ⟨rfl, rfl, rfl⟩ List.Forall₂.nil)

/-- C9: the strict window conditions with 7 below 30 below 90 nest the
rolling windows, and a record in Today (difference 0) or Yesterday
(difference 1) lies in all three rolling windows. -/
theorem c9_window_nesting (now rec : Date) :
    (MemToday now rec →
      MemLast7Days now rec ∧ MemLast30Days now rec ∧ MemLast90Days now rec) ∧
    (MemYesterday now rec →
      MemLast7Days now rec ∧ MemLast30Days now rec ∧ MemLast90Days now rec) ∧
    (MemLast7Days now rec → MemLast30Days now rec ∧ MemLast90Days now rec) ∧
    (MemLast30Days now rec → MemLast90Days now rec) := by
  simp only [MemToday, MemYesterday, MemLast7Days, MemLast30Days, MemLast90Days]
  omega

/-- C9 witness: a record dated today lies in all three rolling windows. -/
theorem c9_window_nesting_witness :
    MemLast7Days ⟨2024, 1, 7⟩ ⟨2024, 1, 7⟩ ∧ MemLast30Days ⟨2024, 1, 7⟩ ⟨2024, 1, 7⟩ ∧
      MemLast90Days ⟨2024, 1, 7⟩ ⟨2024, 1, 7⟩ :=
  (c9_window_nesting ⟨2024, 1, 7⟩ ⟨2024, 1, 7⟩).1 (by decide)

/-- C10: the duration parser does not restrict the token to non-negative
integers: a Feed record with value -5 mins contains the substring mins,
its leading token parses as the negative integer -5, and the total drops
below zero. -/
theorem c10_negative_feed_duration :
    hasMins ("-5 mins") = true ∧
    pyParseInt (firstSpaceToken ("-5 mins")) = some (-5) ∧
    (update_summary_dict initialSummary ("Feed") ("-5 mins")).feed_total_mins = -5 ∧
    (update_summary_dict initialSummary ("Feed") ("-5 mins")).feed_total_mins < 0 ∧
    (update_summary_dict initialSummary ("Feed") ("-5 mins")).feed_count = 1 := by
  decide

end BabyTracker
